import Mathlib

/-!
Verification development for the vuestorefront Odoo extension modules.

The Python sources are shallowly embedded: recordsets become lists of
records, fields become structure fields, Python truthiness tests become
explicit emptiness or zero tests, and framework services (hmac, the
ir.config_parameter store, the ORM search) become explicit parameters.
Each section names the Python file and function it embeds.
-/

set_option autoImplicit false

namespace VSF

/-! ## payment_vsf/models/payment_transaction.py : state updates -/

/-- A payment.transaction record, restricted to the fields read or written by
the state-update helpers of payment_transaction.py: the record id, the
lifecycle state, the state message, and the two datetime fields written by
update_state (date and last_state_change, both set to the current time). -/
structure Tx where
  id : Nat
  state : String
  stateMessage : Option String
  date : Nat
  lastStateChange : Nat
deriving Repr, DecidableEq

/-- The write issued by update_state on the transactions to process:
state is set to the target state, state_message to the given message, and
date and last_state_change to the current time. -/
def writeTx (targetState : String) (msg : Option String) (now : Nat) (t : Tx) : Tx :=
  { t with state := targetState, stateMessage := msg, date := now, lastStateChange := now }

/-- classify_by_state, first group: transactions whose state is one of the
allowed states (filtered with the state-membership predicate). -/
def txsToProcess (allowedStates : List String) (txs : List Tx) : List Tx :=
  txs.filter (fun t => allowedStates.contains t.state)

/-- classify_by_state, second group: transactions whose state equals the
target state. -/
def txsAlreadyProcessed (targetState : String) (txs : List Tx) : List Tx :=
  txs.filter (fun t => t.state == targetState)

/-- Recordset difference, as used by classify_by_state: the records of the
left recordset whose id does not occur in the right recordset. -/
def rsDiff (l r : List Tx) : List Tx :=
  l.filter (fun t => r.all (fun u => u.id != t.id))

/-- classify_by_state, third group: the recordset minus the first two groups. -/
def txsWrongState (allowedStates : List String) (targetState : String) (txs : List Tx) : List Tx :=
  rsDiff (rsDiff txs (txsToProcess allowedStates txs)) (txsAlreadyProcessed targetState txs)

/-- update_state: the transactions whose state is allowed receive the write;
the others are untouched. Returns the pair (the recordset after the write,
the returned txs_to_process recordset after the write). In the Python code
the write mutates the shared records, so the records of the returned
recordset carry the new state. -/
def updateState (allowedStates : List String) (targetState : String)
    (msg : Option String) (now : Nat) (txs : List Tx) : List Tx × List Tx :=
  (txs.map (fun t =>
      if allowedStates.contains t.state then writeTx targetState msg now t else t),
   (txsToProcess allowedStates txs).map (writeTx targetState msg now))

/-- set_pending: target state pending, allowed source states (draft,). -/
def setPending (msg : Option String) (now : Nat) (txs : List Tx) : List Tx × List Tx :=
  updateState ["draft"] "pending" msg now txs

/-- set_authorized: target state authorized, allowed (draft, pending). -/
def setAuthorized (msg : Option String) (now : Nat) (txs : List Tx) : List Tx × List Tx :=
  updateState ["draft", "pending"] "authorized" msg now txs

/-- set_done: target state done, allowed (draft, pending, authorized, error). -/
def setDone (msg : Option String) (now : Nat) (txs : List Tx) : List Tx × List Tx :=
  updateState ["draft", "pending", "authorized", "error"] "done" msg now txs

/-- set_canceled: target state cancel, allowed (draft, pending, authorized). -/
def setCanceled (msg : Option String) (now : Nat) (txs : List Tx) : List Tx × List Tx :=
  updateState ["draft", "pending", "authorized"] "cancel" msg now txs

/-- set_error: target state error, allowed (draft, pending, authorized). -/
def setError (msg : Option String) (now : Nat) (txs : List Tx) : List Tx × List Tx :=
  updateState ["draft", "pending", "authorized"] "error" msg now txs

/-- The property C1 claims of update_state: the three groups of
classify_by_state are pairwise disjoint and cover the recordset, exactly the
first group receives the write, and the returned recordset is the written
first group. -/
def UpdateStatePartition (allowedStates : List String) (targetState : String)
    (msg : Option String) (now : Nat) (txs : List Tx) : Prop :=
  (∀ t ∈ txs,
      (t ∈ txsToProcess allowedStates txs ∧ t ∉ txsAlreadyProcessed targetState txs
         ∧ t ∉ txsWrongState allowedStates targetState txs)
    ∨ (t ∉ txsToProcess allowedStates txs ∧ t ∈ txsAlreadyProcessed targetState txs
         ∧ t ∉ txsWrongState allowedStates targetState txs)
    ∨ (t ∉ txsToProcess allowedStates txs ∧ t ∉ txsAlreadyProcessed targetState txs
         ∧ t ∈ txsWrongState allowedStates targetState txs))
  ∧ List.Forall₂ (fun old new =>
      (old ∈ txsToProcess allowedStates txs → new = writeTx targetState msg now old) ∧
      (old ∉ txsToProcess allowedStates txs → new = old))
      txs (updateState allowedStates targetState msg now txs).1
  ∧ (updateState allowedStates targetState msg now txs).2
      = (txsToProcess allowedStates txs).map (writeTx targetState msg now)

/-- A concrete recordset used to witness the amended C1. -/
def wTxs : List Tx := [⟨1, "draft", none, 0, 0⟩, ⟨2, "pending", none, 0, 0⟩, ⟨3, "done", none, 0, 0⟩]

/-! ## payment_vsf/models/payment_transaction.py : callback execution -/

/-- The framework services used by execute_callback: the model name of an
ir.model record, the hmac helper keyed with generate_callback_hash, the
existence test of the callback record, and the value returned by calling the
callback method (a Python value modelled by its truthiness, none standing
for the Python None). -/
structure CbEnv where
  modelName : Nat → String
  hmacHash : String → String
  recordExists : String → Int → Bool
  callbackRet : String → Int → String → Nat → Option Bool

/-- The callback fields of a payment.transaction. A model id of 0, a
resource id of 0 and an empty method name stand for unset (falsy) fields. -/
structure CbTx where
  id : Nat
  callback_is_done : Bool
  callback_model_id : Nat
  callback_res_id : Int
  callback_method : String
  callback_hash : String
deriving Repr, DecidableEq

/-- ustr applied to the recomputed hash; the Python str of None is the
string None. -/
def ustrOpt : Option String → String
  | none => "None"
  | some s => s

/-- generate_callback_hash_changed: when the three callback values are all
set (truthy), the hmac of the token model_name|res_id|method; None
otherwise. -/
def generateCallbackHash (env : CbEnv) (callbackModelId : Nat) (callbackResId : Int)
    (callbackMethod : String) : Option String :=
  if callbackModelId ≠ 0 ∧ callbackResId ≠ 0 ∧ callbackMethod ≠ "" then
    some (env.hmacHash
      (env.modelName callbackModelId ++ "|" ++ toString callbackResId ++ "|" ++ callbackMethod))
  else none

/-- The value stored into callback_is_done after an execution: the callback
return value, with a missing return (None) counting as success. -/
def retDone : Option Bool → Bool
  | none => true
  | some b => b

/-- execute_callback restricted to one transaction: whether the callback was
executed, and the transaction afterwards. The transaction is skipped when it
is already marked done, when one of model, res_id and method is unset, when
the stored hash differs from the recomputed one (consteq is modelled by
string equality), or when the callback record no longer exists. -/
def executeCallbackOne (env : CbEnv) (tx : CbTx) : Bool × CbTx :=
  if tx.callback_is_done then (false, tx)
  else if ¬(tx.callback_model_id ≠ 0 ∧ tx.callback_res_id ≠ 0 ∧ tx.callback_method ≠ "") then
    (false, tx)
  else if ustrOpt (generateCallbackHash env tx.callback_model_id tx.callback_res_id
      tx.callback_method) ≠ tx.callback_hash then (false, tx)
  else if ¬ env.recordExists (env.modelName tx.callback_model_id) tx.callback_res_id then
    (false, tx)
  else
    (true,
      { tx with
          callback_is_done :=
            retDone (env.callbackRet (env.modelName tx.callback_model_id)
              tx.callback_res_id tx.callback_method tx.id) })

/-- execute_callback over a recordset: every transaction not yet marked done
goes through the callback machinery, the others are untouched. -/
def executeCallback (env : CbEnv) (txs : List CbTx) : List CbTx :=
  txs.map (fun t => (executeCallbackOne env t).2)

/-- A concrete callback environment used to witness C3. -/
def cbEnvW : CbEnv where
  modelName := fun _ => "sale.order"
  hmacHash := fun s => "h" ++ s
  recordExists := fun _ _ => true
  callbackRet := fun _ _ _ _ => some true

/-- A concrete transaction whose callback is valid and not yet done. -/
def cbTxW : CbTx where
  id := 9
  callback_is_done := false
  callback_model_id := 4
  callback_res_id := 11
  callback_method := "confirm"
  callback_hash := "hsale.order|11|confirm"

/-! ## payment_vsf/models/payment_transaction.py : action methods -/

/-- The fields of a payment.transaction read by the action methods. -/
structure ATx where
  id : Nat
  state : String
  provider : String
deriving Repr, DecidableEq

/-- A provider request issued by an action method: Adyen-direct transactions
go through the send-request helpers, all other providers through the s2s
helpers. -/
inductive AReq where
  | sendCapture (id : Nat)
  | s2sCapture (id : Nat)
  | sendVoid (id : Nat)
  | s2sVoid (id : Nat)
  | sendRefund (id : Nat)
  | s2sRefund (id : Nat)
deriving Repr, DecidableEq

/-- action_capture: raises when any transaction is not authorized, then
checks the access rights (payment_vsf.utils is outside the embedded sources,
so the check is kept abstract as a boolean), then issues one capture request
per transaction. The result pairs the requests issued with the raised error
message, if any. -/
def actionCapture (rightsOk : Bool) (txs : List ATx) : List AReq × Option String :=
  if txs.any (fun t => t.state != "authorized") then
    ([], some "Only authorized transactions can be captured.")
  else if ¬ rightsOk then ([], some "AccessError")
  else (txs.map (fun t =>
      if t.provider == "adyen_direct" then AReq.sendCapture t.id else AReq.s2sCapture t.id),
    none)

/-- action_void, analogous to action_capture. -/
def actionVoid (rightsOk : Bool) (txs : List ATx) : List AReq × Option String :=
  if txs.any (fun t => t.state != "authorized") then
    ([], some "Only authorized transactions can be voided.")
  else if ¬ rightsOk then ([], some "AccessError")
  else (txs.map (fun t =>
      if t.provider == "adyen_direct" then AReq.sendVoid t.id else AReq.s2sVoid t.id),
    none)

/-- action_refund: raises when any transaction is not done, then issues one
refund request per transaction (no rights check in the source). -/
def actionRefund (txs : List ATx) : List AReq × Option String :=
  if txs.any (fun t => t.state != "done") then
    ([], some "Only confirmed transactions can be refunded.")
  else (txs.map (fun t =>
      if t.provider == "adyen_direct" then AReq.sendRefund t.id else AReq.s2sRefund t.id),
    none)

/-! ## payment_vsf/models/payment_transaction.py : reference computation

compute_reference_changed builds the Python regular expression
caret prefix separator (backslash d plus) dollar by interpolating the raw,
unescaped prefix and separator. The fragment of the re module reachable
from characters actually given a meaning by this model is embedded below:
literal characters and the plus quantifier applied to a literal; a prefix
or separator using any other regex construct makes computeReference return
none (outside the model). -/

/-- An atom of the compiled pattern: a literal character, or a literal under
the plus quantifier (one or more occurrences). -/
inductive RTok where
  | lit (c : Char)
  | plusLit (c : Char)
deriving Repr, DecidableEq

/-- The characters that are special in a Python regular expression (the
plus is handled separately by tokenizePat). -/
def regexSpecial : List Char :=
  ['.', '^', '$', '*', '?', '\x7b', '\x7d', '[', ']', '\\', '|', '(', ')']

/-- Tokenize the unescaped pattern text prefix ++ separator the way the re
module reads it: a plus turns the previous literal into a one-or-more atom;
a plus with no previous literal is a regex error; any other special
character is outside the model. The accumulator holds the tokens read so
far, reversed. -/
def tokenizePat : List Char → List RTok → Option (List RTok)
  | [], acc => some acc.reverse
  | '+' :: rest, RTok.lit c :: acc => tokenizePat rest (RTok.plusLit c :: acc)
  | '+' :: _, _ => none
  | c :: rest, acc =>
    if c ∈ regexSpecial then none else tokenizePat rest (RTok.lit c :: acc)

/-- Numeric value of a string of decimal digits, as the Python int. -/
def digitsVal (s : List Char) : Nat :=
  s.foldl (fun a c => a * 10 + (c.toNat - 48)) 0

/-- Matching a reference against the compiled pattern: the tokens, anchored
at the start, followed by the parenthesised digit group anchored at the
end. Returns the integer value of the digit group on success. The plus
quantifier is greedy with backtracking, as in the re module. -/
def matchG : List RTok → List Char → Option Nat
  | [], s => if s ≠ [] ∧ s.all Char.isDigit then some (digitsVal s) else none
  | _ :: _, [] => none
  | RTok.lit c :: ts, x :: s => if x = c then matchG ts s else none
  | RTok.plusLit c :: ts, x :: s =>
    if x = c then
      match matchG (RTok.plusLit c :: ts) s with
      | some v => some v
      | none => matchG ts s
    else none

/-- compute_reference_changed, for a provided nonempty ASCII prefix (the
unicode normalisation is then the identity and neither fallback prefix is
taken), over the list of existing transaction references. The first search
is the equality search on the prefix. The second search (SQL like on
prefix ++ separator ++ percent) is modelled by the literal prefix test; it
selects the same matches of the final regex scan whenever the pattern stays
inside the modelled regex fragment, because a string accepted by the
modelled regex after passing the literal prefix test is accepted by the
like filter, and like only ever widens the candidate set. The final scan
takes the largest digit-group value among the candidates, 0 when none
matches, and appends its successor to the prefix and separator. -/
def computeReference (refs : List String) (pfx sep : String) : Option String :=
  if pfx ∈ refs then
    match tokenizePat (pfx.data ++ sep.data) [] with
    | none => none
    | some toks =>
      some (pfx ++ sep ++ toString
        (((refs.filter (fun r => (pfx ++ sep).data.isPrefixOf r.data)).foldl
          (fun m r =>
            match matchG toks r.data with
            | some v => max m v
            | none => m) 0) + 1))
  else some pfx

/-- The existing references of the C5 failing input. -/
def refsW : List String := ["a+", "a+-5", "a+-1"]

/-! ## graphql_vuestorefront/schemas/product.py : get_search_domain -/

/-- A leaf condition of an ORM search domain, as produced by
get_search_domain. -/
inductive Cond where
  | idIn (ids : List Int)
  | categChildOf (ids : List Int)
  | categSlugEq (slug : String)
  | attrValIn (ids : List Int)
  | nameIlike (s : String)
  | descSaleLike (s : String)
  | defaultCodeLike (s : String)
  | priceGE (p : Rat)
  | priceLE (p : Rat)
deriving Repr, DecidableEq

/-- A term of a search domain in Odoo polish notation: the disjunction
operator or a leaf condition (only these occur in this file's domains). -/
inductive DTerm where
  | orOp
  | leaf (c : Cond)
deriving Repr, DecidableEq

/-- A search domain: a list of terms. -/
abbrev Domain := List DTerm

/-- The framework context of get_search_domain: the published-product
domain of the current website (sale_product_domain). -/
structure PEnv where
  saleProductDomain : Domain
deriving Repr, DecidableEq

/-- The GraphQL product filter, the kwargs of get_search_domain: a missing
entry is none, and the Python truthiness of a present entry is tested by
the truthy functions below. -/
structure FilterKw where
  ids : Option (List Int) := none
  category_id : Option (List Int) := none
  category_slug : Option String := none
  attribute_value_id : Option (List Int) := none
  attrib_values : Option (List String) := none
  name : Option String := none
  min_price : Option Rat := none
  max_price : Option Rat := none
deriving Repr, DecidableEq

/-- Python truthiness of an optional list: present and nonempty. -/
def truthyList {α : Type} : Option (List α) → Bool
  | none => false
  | some l => !l.isEmpty

/-- Python truthiness of an optional string: present and nonempty. -/
def truthyStr : Option String → Bool
  | none => false
  | some s => s != ""

/-- Python truthiness of an optional number: present and nonzero. -/
def truthyNum : Option Rat → Bool
  | none => false
  | some q => q != 0

/-- The Python str.split with an explicit one-character separator: every
occurrence of the separator splits, and empty pieces are kept. -/
def splitOnChar (sep : Char) : List Char → List (List Char)
  | [] => [[]]
  | c :: rest =>
    match splitOnChar sep rest with
    | [] => [[]]
    | p :: ps => if c = sep then [] :: p :: ps else (c :: p) :: ps

/-- The Python whitespace characters stripped by int(). -/
def pyWs : List Char := [' ', '\t', '\n', '\r', '\x0b', '\x0c']

/-- Continuation of the digit run accepted by the Python int() literal:
digits, with single underscores allowed between digits. -/
def validAfterDigit : List Char → Bool
  | [] => true
  | '_' :: rest =>
    match rest with
    | [] => false
    | c :: rest2 => c.isDigit && validAfterDigit rest2
  | c :: rest => c.isDigit && validAfterDigit rest

/-- The digit run accepted by the Python int() literal after the optional
sign: nonempty digits with single underscores between digits. -/
def validDigitRun : List Char → Bool
  | [] => false
  | c :: rest => c.isDigit && validAfterDigit rest

/-- Python int() applied to a string: optional surrounding whitespace, an
optional sign, then decimal digits with optional single underscores between
them (restricted to ASCII digits in this model); none when the string is
not an integer literal, where the Python code raises ValueError. -/
def pyInt (s : List Char) : Option Int :=
  match ((s.dropWhile (fun c => pyWs.contains c)).reverse.dropWhile
      (fun c => pyWs.contains c)).reverse with
  | '+' :: rest =>
    if validDigitRun rest then some (digitsVal (rest.filter (fun c => c != '_')) : Int)
    else none
  | '-' :: rest =>
    if validDigitRun rest then some (-(digitsVal (rest.filter (fun c => c != '_')) : Int))
    else none
  | rest =>
    if validDigitRun rest then some (digitsVal (rest.filter (fun c => c != '_')) : Int)
    else none

/-- One attrib_values entry: split on the dash, require exactly two parts,
parse both parts as Python ints; any failure (a part count other than two,
or a ValueError from int) skips the entry. -/
def pyPair (s : String) : Option (Int × Int) :=
  match splitOnChar '-' s.data with
  | [a, b] =>
    match pyInt a, pyInt b with
    | some x, some y => some (x, y)
    | _, _ => none
  | _ => none

/-- Python truthiness of the attrib loop variable: None and 0 are falsy. -/
def truthyAttrib : Option Int → Bool
  | none => false
  | some a => a != 0

/-- The attrib_values loop of get_search_domain, reduced to the appended
value-id lists: the state is the running attribute id (None at start) and
the accumulated value ids; entries that fail to parse are skipped. When the
running id is falsy (None at the start, or 0 from a previous entry) the
source's first branch appends the new value id to the accumulated ids and
replaces the running id, so the ids of a zero-id group leak into the next
conjunct; when the entry repeats the truthy running id its value id is
appended; any other entry flushes the accumulated ids as one conjunct and
restarts the accumulation with the new entry. After the loop the
accumulated ids are flushed when the running id is truthy. -/
def attribLoop : List String → Option Int → List Int → List (List Int)
  | [], attrib, ids => if truthyAttrib attrib then [ids] else []
  | v :: rest, attrib, ids =>
    match pyPair v with
    | none => attribLoop rest attrib ids
    | some (a, val) =>
      if !truthyAttrib attrib then attribLoop rest (some a) (ids ++ [val])
      else if some a == attrib then attribLoop rest attrib (ids ++ [val])
      else ids :: attribLoop rest (some a) [val]

/-- The attribute-value conjuncts contributed by the attrib_values filter. -/
def attribDomains (entries : List String) : List Domain :=
  (attribLoop entries none []).map (fun l => [DTerm.leaf (Cond.attrValIn l)])

/-- The attrib_values loop carrying the domains list it appends to, exactly
as in the source. -/
def attribLoopDoms : List String → Option Int → List Int → List Domain → List Domain
  | [], attrib, ids, doms =>
    if truthyAttrib attrib then doms ++ [[DTerm.leaf (Cond.attrValIn ids)]] else doms
  | v :: rest, attrib, ids, doms =>
    match pyPair v with
    | none => attribLoopDoms rest attrib ids doms
    | some (a, val) =>
      if !truthyAttrib attrib then attribLoopDoms rest (some a) (ids ++ [val]) doms
      else if some a == attrib then attribLoopDoms rest attrib (ids ++ [val]) doms
      else attribLoopDoms rest (some a) [val] (doms ++ [[DTerm.leaf (Cond.attrValIn ids)]])

/-- A for-loop appending one domain per token to the domains list. -/
def appendTokens (doms : List Domain) (f : String → Domain) (tokens : List String) :
    List Domain :=
  tokens.foldl (fun ds n => ds ++ [f n]) doms

/-- The conjunction built by expression.AND, represented by its list of
conjunct domains (the framework combinator normalises the conjuncts and
joins them under the conjunction operator; only the conjunct list matters
to the claims). -/
structure AndDomain where
  conjuncts : List Domain
deriving Repr, DecidableEq

/-- The three-way disjunction appended for each piece of the search string:
ilike on name, like on description_sale and like on default_code. -/
def searchDisjunct (srch : String) : Domain :=
  [DTerm.orOp, DTerm.orOp, DTerm.leaf (Cond.nameIlike srch),
   DTerm.leaf (Cond.descSaleLike srch), DTerm.leaf (Cond.defaultCodeLike srch)]

/-- get_search_domain: starts from the published-product domain of the
current website and appends, in source order and under the source's
truthiness guards: the id filter, the category filters, the deprecated
attribute_value_id filter, the attrib_values loop, one name conjunct per
piece of the name filter split on single spaces, one search disjunction per
piece of the search string split on single spaces, and the price bounds.
Python str.split with an explicit single-space separator keeps empty
pieces, as String.splitOn does. -/
def getSearchDomain (env : PEnv) (search : Option String) (kw : FilterKw) : AndDomain :=
  let doms0 := [env.saleProductDomain]
  let doms1 := if truthyList kw.ids
    then doms0 ++ [[DTerm.leaf (Cond.idIn (kw.ids.getD []))]] else doms0
  let doms2 := if truthyList kw.category_id
    then doms1 ++ [[DTerm.leaf (Cond.categChildOf (kw.category_id.getD []))]] else doms1
  let doms3 := if truthyStr kw.category_slug
    then doms2 ++ [[DTerm.leaf (Cond.categSlugEq (kw.category_slug.getD ""))]] else doms2
  let doms4 := if truthyList kw.attribute_value_id
    then doms3 ++ [[DTerm.leaf (Cond.attrValIn (kw.attribute_value_id.getD []))]] else doms3
  let doms5 := if truthyList kw.attrib_values
    then attribLoopDoms (kw.attrib_values.getD []) none [] doms4 else doms4
  let doms6 := if truthyStr kw.name
    then appendTokens doms5 (fun n => [DTerm.leaf (Cond.nameIlike n)])
      ((kw.name.getD "").splitOn " ") else doms5
  let doms7 := if truthyStr search
    then appendTokens doms6 searchDisjunct ((search.getD "").splitOn " ") else doms6
  let doms8 := if truthyNum kw.min_price
    then doms7 ++ [[DTerm.leaf (Cond.priceGE (kw.min_price.getD 0))]] else doms7
  let doms9 := if truthyNum kw.max_price
    then doms8 ++ [[DTerm.leaf (Cond.priceLE (kw.max_price.getD 0))]] else doms8
  ⟨doms9⟩

/-- The filter input of the C6 counterexample: max_price is provided with
the value 0. -/
def kwMaxZero : FilterKw := { max_price := some 0 }

/-- The website context of the C6 counterexample. -/
def pEnvW : PEnv := ⟨[]⟩

/-- The conjunct groups of the attrib_values loop, described from the
parsed pairs: the arguments are the previous entry's attribute id and the
value ids accumulated so far. A following entry extends the group when the
previous id is 0 (falsy, so the loop cannot close the group: its ids are
carried along) or when it repeats the previous id; any other entry closes
the group as one conjunct and starts a new group. The final group is kept
only when its last attribute id is nonzero. This is the specification the
amended C9 compares the loop against. -/
def blocksCont (a : Int) (ids : List Int) : List (Int × Int) → List (List Int)
  | [] => if a = 0 then [] else [ids]
  | (b, v) :: rest =>
    if a = 0 ∨ b = a then blocksCont b (ids ++ [v]) rest
    else ids :: blocksCont b [v] rest

/-- The group decomposition of a parsed attrib_values list. -/
def blocksSpec : List (Int × Int) → List (List Int)
  | [] => []
  | (a, v) :: rest => blocksCont a [v] rest

/-! ## graphql_vuestorefront/schemas/product.py : get_product_list -/

/-- Clamp a Python slice bound to the list length: a negative index counts
from the end of the list. -/
def pyBound (n : Nat) (i : Int) : Nat :=
  if i < 0 then (i + n).toNat else min i.toNat n

/-- The Python slice l[a:b]. -/
def pySlice {α : Type} (l : List α) (a b : Int) : List α :=
  (l.take (pyBound l.length b)).drop (pyBound l.length a)

/-- get_product_list: the domain search is abstracted by the full ordered
product list it returns; the offset is (current_page - 1) * page_size for
pages beyond the first and 0 otherwise; the total count is the length of
the full list, taken before pagination, and the returned page is the slice
from offset to offset + page_size. The attribute_value_ids mapping, not
involved in any claim, is omitted. -/
def getProductList {α : Type} (products : List α) (currentPage pageSize : Int) :
    List α × Nat :=
  let off : Int := if currentPage > 1 then (currentPage - 1) * pageSize else 0
  (pySlice products off (off + pageSize), products.length)

/-! ## graphql_vuestorefront/schemas/product.py : resolve_product -/

/-- The lookup services used by resolve_product: search by id, by website
slug and by barcode (each with limit 1), and the access test
can_access_from_current_website. Products are modelled by their ids. -/
structure REnv where
  byId : Int → Option Nat
  bySlug : String → Option Nat
  byBarcode : String → Option Nat
  canAccess : Nat → Bool

/-- Python truthiness of the id argument: present and nonzero. -/
def truthyId : Option Int → Bool
  | none => false
  | some i => i != 0

/-- The prioritised lookup of resolve_product: by id when the id is truthy,
else by slug when the slug is truthy, else by barcode when the barcode is
truthy, else nothing. -/
def priLookup (env : REnv) (pid : Option Int) (slug barcode : Option String) : Option Nat :=
  if truthyId pid then env.byId (pid.getD 0)
  else if truthyStr slug then env.bySlug (slug.getD "")
  else if truthyStr barcode then env.byBarcode (barcode.getD "")
  else none

/-- resolve_product: raises (Product does not exist.) when the prioritised
lookup finds nothing or the found product is not accessible from the
current website; returns the found product otherwise. -/
def resolveProduct (env : REnv) (pid : Option Int) (slug barcode : Option String) :
    Except String Nat :=
  match priLookup env pid slug barcode with
  | none => Except.error "Product does not exist."
  | some p =>
    if env.canAccess p then Except.ok p else Except.error "Product does not exist."

/-- A concrete catalog for the C8 witness: product 42 has id key 5 and is
accessible. -/
def rEnvW : REnv where
  byId := fun i => if i = 5 then some 42 else none
  bySlug := fun _ => none
  byBarcode := fun _ => none
  canAccess := fun _ => true

/-- A concrete catalog for the C8 counterexample: no product has an id key,
the slug lookup finds product 7, everything is accessible. -/
def rEnvC : REnv where
  byId := fun _ => none
  bySlug := fun _ => some 7
  byBarcode := fun _ => none
  canAccess := fun _ => true

/-! ## graphql_vuestorefront/models/res_config_settings.py -/

/-- The ir.config_parameter key-value store. -/
def ParamStore : Type := String → Option String

/-- set_param: store a value under a key. -/
def setParam (store : ParamStore) (k v : String) : ParamStore :=
  fun q => if q = k then some v else store q

/-- The two cache-invalidation fields of the settings record. -/
structure CacheSettings where
  vsf_cache_invalidation_key : String
  vsf_cache_invalidation_url : String

/-- set_values: first the super call (an arbitrary transformation of the
store, standing for the other settings sections written before the two
set_param calls), then the two set_param writes of the cache fields. -/
def setValues (superSet : ParamStore → ParamStore) (cfg : CacheSettings)
    (store : ParamStore) : ParamStore :=
  setParam
    (setParam (superSet store) "vsf_cache_invalidation_key" cfg.vsf_cache_invalidation_key)
    "vsf_cache_invalidation_url" cfg.vsf_cache_invalidation_url

/-- get_values: the dictionary of the super call updated with the two
get_param reads, so the two modelled fields are exactly the two store
lookups. -/
def getValues (store : ParamStore) : Option String × Option String :=
  (store "vsf_cache_invalidation_key", store "vsf_cache_invalidation_url")

/-- A transaction already in state done, used to refute C1 as stated. -/
def txDoneC : Tx := ⟨0, "done", none, 0, 0⟩

/-! ## Theorems -/

example :
    (setPending none 7 [⟨1, "draft", none, 0, 0⟩, ⟨2, "done", none, 0, 0⟩]).1
      = [⟨1, "pending", none, 7, 7⟩, ⟨2, "done", none, 0, 0⟩] := by decide

example :
    (setDone (some "ok") 3 [⟨1, "error", none, 0, 0⟩]).2
      = [⟨1, "done", some "ok", 3, 3⟩] := by decide

/-- Pointwise description of the recordset after update_state: a transaction
in an allowed state receives the write, any other transaction is unchanged. -/
theorem updateState_fst_forall₂ (allowedStates : List String) (targetState : String)
    (msg : Option String) (now : Nat) (txs : List Tx) :
    List.Forall₂ (fun old new =>
        (old.state ∈ allowedStates → new = writeTx targetState msg now old) ∧
        (old.state ∉ allowedStates → new = old))
      txs (updateState allowedStates targetState msg now txs).1 := by
  unfold updateState
  rw [List.forall₂_map_right_iff]
  refine List.forall₂_same.mpr (fun t _ => ?_)
  by_cases h : t.state ∈ allowedStates
  · simp [h]
  · simp [h]

/-- The state transition performed by update_state, per position. -/
theorem updateState_state_edge (allowedStates : List String) (targetState : String)
    (msg : Option String) (now : Nat) (txs : List Tx) :
    List.Forall₂ (fun old new =>
        new.state = if old.state ∈ allowedStates then targetState else old.state)
      txs (updateState allowedStates targetState msg now txs).1 := by
  refine (updateState_fst_forall₂ allowedStates targetState msg now txs).imp ?_
  intro a b hab
  by_cases h : a.state ∈ allowedStates
  · rw [hab.1 h, if_pos h]; rfl
  · rw [hab.2 h, if_neg h]

/-- C2: the lifecycle setters move a transaction's state only along the
allowed edges: set_pending writes pending only from draft; set_authorized
writes authorized only from draft or pending; set_done writes done only from
draft, pending, authorized or error; set_canceled and set_error write
cancel / error only from draft, pending or authorized; a transaction in any
other state keeps its state, hence is never moved to the target state. -/
theorem C2_lifecycle_edges (msg : Option String) (now : Nat) (txs : List Tx) :
    List.Forall₂ (fun old new =>
        new.state = if old.state ∈ ["draft"] then "pending" else old.state)
      txs (setPending msg now txs).1
  ∧ List.Forall₂ (fun old new =>
        new.state = if old.state ∈ ["draft", "pending"] then "authorized" else old.state)
      txs (setAuthorized msg now txs).1
  ∧ List.Forall₂ (fun old new =>
        new.state = if old.state ∈ ["draft", "pending", "authorized", "error"] then "done"
          else old.state)
      txs (setDone msg now txs).1
  ∧ List.Forall₂ (fun old new =>
        new.state = if old.state ∈ ["draft", "pending", "authorized"] then "cancel"
          else old.state)
      txs (setCanceled msg now txs).1
  ∧ List.Forall₂ (fun old new =>
        new.state = if old.state ∈ ["draft", "pending", "authorized"] then "error"
          else old.state)
      txs (setError msg now txs).1 :=
  ⟨updateState_state_edge _ _ msg now txs, updateState_state_edge _ _ msg now txs,
   updateState_state_edge _ _ msg now txs, updateState_state_edge _ _ msg now txs,
   updateState_state_edge _ _ msg now txs⟩

/-- Membership in the first group of classify_by_state. -/
theorem mem_txsToProcess (allowedStates : List String) (txs : List Tx) (t : Tx) :
    t ∈ txsToProcess allowedStates txs ↔ t ∈ txs ∧ t.state ∈ allowedStates := by
  simp [txsToProcess, List.mem_filter]

/-- Membership in the second group of classify_by_state. -/
theorem mem_txsAlreadyProcessed (targetState : String) (txs : List Tx) (t : Tx) :
    t ∈ txsAlreadyProcessed targetState txs ↔ t ∈ txs ∧ t.state = targetState := by
  simp [txsAlreadyProcessed, List.mem_filter]

/-- Membership in the third group of classify_by_state. -/
theorem mem_txsWrongState (allowedStates : List String) (targetState : String)
    (txs : List Tx) (t : Tx) :
    t ∈ txsWrongState allowedStates targetState txs ↔
      t ∈ txs ∧ (∀ u ∈ txsToProcess allowedStates txs, u.id ≠ t.id)
        ∧ (∀ u ∈ txsAlreadyProcessed targetState txs, u.id ≠ t.id) := by
  simp only [txsWrongState, rsDiff, List.mem_filter, List.all_eq_true, bne_iff_ne, ne_eq,
    and_assoc]

/-- C1, amended with the hypothesis that the target state is not itself an
allowed source state (true of all five call sites): update_state partitions
the recordset into the three disjoint classify_by_state groups, writes
exactly the first group, and returns exactly the written first group.
The hypothesis on ids states that the recordset has no duplicate record. -/
theorem C1_partition (allowedStates : List String) (targetState : String)
    (msg : Option String) (now : Nat) (txs : List Tx)
    (hT : targetState ∉ allowedStates) (hN : (txs.map Tx.id).Nodup) :
    UpdateStatePartition allowedStates targetState msg now txs := by
  have inj := List.inj_on_of_nodup_map hN
  refine ⟨fun t ht => ?_, ?_, rfl⟩
  · by_cases hs : t.state ∈ allowedStates
    · have hG1 : t ∈ txsToProcess allowedStates txs :=
        (mem_txsToProcess allowedStates txs t).mpr ⟨ht, hs⟩
      refine Or.inl ⟨hG1, ?_, ?_⟩
      · intro hmem
        exact hT (((mem_txsAlreadyProcessed targetState txs t).mp hmem).2 ▸ hs)
      · intro hmem
        exact ((mem_txsWrongState allowedStates targetState txs t).mp hmem).2.1 t hG1 rfl
    · by_cases hs2 : t.state = targetState
      · have hG2 : t ∈ txsAlreadyProcessed targetState txs :=
          (mem_txsAlreadyProcessed targetState txs t).mpr ⟨ht, hs2⟩
        refine Or.inr (Or.inl ⟨?_, hG2, ?_⟩)
        · intro hmem
          exact hs ((mem_txsToProcess allowedStates txs t).mp hmem).2
        · intro hmem
          exact ((mem_txsWrongState allowedStates targetState txs t).mp hmem).2.2 t hG2 rfl
      · refine Or.inr (Or.inr ⟨?_, ?_, ?_⟩)
        · intro hmem
          exact hs ((mem_txsToProcess allowedStates txs t).mp hmem).2
        · intro hmem
          exact hs2 ((mem_txsAlreadyProcessed targetState txs t).mp hmem).2
        · refine (mem_txsWrongState allowedStates targetState txs t).mpr ⟨ht, ?_, ?_⟩
          · intro u hu hid
            have hu' := (mem_txsToProcess allowedStates txs u).mp hu
            exact hs (inj hu'.1 ht hid ▸ hu'.2)
          · intro u hu hid
            have hu' := (mem_txsAlreadyProcessed targetState txs u).mp hu
            exact hs2 (inj hu'.1 ht hid ▸ hu'.2)
  · unfold updateState
    rw [List.forall₂_map_right_iff]
    refine List.forall₂_same.mpr (fun t ht => ?_)
    constructor
    · intro hG1
      have hs := ((mem_txsToProcess allowedStates txs t).mp hG1).2
      simp [hs]
    · intro hnG1
      have hs : t.state ∉ allowedStates := fun hs =>
        hnG1 ((mem_txsToProcess allowedStates txs t).mpr ⟨ht, hs⟩)
      simp [hs]

/-- Witness for the amended C1, at a concrete call of set_pending shape. -/
theorem C1_partition_witness :
    ("pending" ∉ (["draft"] : List String)) ∧ (wTxs.map Tx.id).Nodup
      ∧ UpdateStatePartition ["draft"] "pending" none 5 wTxs :=
  ⟨by decide, by decide, C1_partition ["draft"] "pending" none 5 wTxs (by decide) (by decide)⟩

/-- C3: the callback of a transaction is executed exactly when the callback
is not already done, model, record id and method are all set, the stored
callback_hash equals the hash recomputed by generate_callback_hash_changed
for those values, and the callback record still exists; after an execution,
callback_is_done is set to true iff the callback returned a truthy value or
None; a transaction skipped for any reason is unchanged, and in particular a
callback already marked done is never executed again. -/
theorem C3_execute_callback (env : CbEnv) (tx : CbTx) :
    ((executeCallbackOne env tx).1 = true ↔
      (tx.callback_is_done = false ∧ tx.callback_model_id ≠ 0 ∧ tx.callback_res_id ≠ 0
        ∧ tx.callback_method ≠ ""
        ∧ generateCallbackHash env tx.callback_model_id tx.callback_res_id tx.callback_method
            = some tx.callback_hash
        ∧ env.recordExists (env.modelName tx.callback_model_id) tx.callback_res_id = true))
  ∧ ((executeCallbackOne env tx).1 = true →
      (executeCallbackOne env tx).2.callback_is_done
        = retDone (env.callbackRet (env.modelName tx.callback_model_id) tx.callback_res_id
            tx.callback_method tx.id))
  ∧ ((executeCallbackOne env tx).1 = false → (executeCallbackOne env tx).2 = tx)
  ∧ (tx.callback_is_done = true → (executeCallbackOne env tx).1 = false) := by
  by_cases h1 : tx.callback_is_done
  · simp [executeCallbackOne, h1]
  · by_cases h2 : tx.callback_model_id ≠ 0 ∧ tx.callback_res_id ≠ 0 ∧ tx.callback_method ≠ ""
    · have hgen : generateCallbackHash env tx.callback_model_id tx.callback_res_id
          tx.callback_method
          = some (env.hmacHash (env.modelName tx.callback_model_id ++ "|"
              ++ toString tx.callback_res_id ++ "|" ++ tx.callback_method)) := by
        rw [generateCallbackHash, if_pos h2]
      by_cases h3 : env.hmacHash (env.modelName tx.callback_model_id ++ "|"
          ++ toString tx.callback_res_id ++ "|" ++ tx.callback_method) = tx.callback_hash
      · by_cases h4 : env.recordExists (env.modelName tx.callback_model_id) tx.callback_res_id
        · simp [executeCallbackOne, h1, h2, hgen, ustrOpt, h3, h4]
        · simp [executeCallbackOne, h1, h2, hgen, ustrOpt, h3, h4]
      · simp [executeCallbackOne, h1, h2, hgen, ustrOpt, h3]
    · simp [executeCallbackOne, h1, h2, generateCallbackHash]

/-- Witness for C3: a concrete transaction whose callback is executed, and
then marked done. -/
theorem C3_execute_callback_witness :
    (executeCallbackOne cbEnvW cbTxW).1 = true
      ∧ (executeCallbackOne cbEnvW cbTxW).2.callback_is_done = true := by
  have h := C3_execute_callback cbEnvW cbTxW
  have hexec : (executeCallbackOne cbEnvW cbTxW).1 = true :=
    h.1.mpr ⟨rfl, by decide, by decide, by decide, by decide, rfl⟩
  exact ⟨hexec, by rw [h.2.1 hexec]; rfl⟩

/-- C4: each action method raises its ValidationError as soon as one
transaction of the recordset is not in the required state, and it does so
before issuing any request, so on error the issued-request list is empty. -/
theorem C4_action_state_checks (rightsOk : Bool) (txs : List ATx) :
    ((∃ t ∈ txs, t.state ≠ "authorized") →
      actionCapture rightsOk txs = ([], some "Only authorized transactions can be captured."))
  ∧ ((∃ t ∈ txs, t.state ≠ "authorized") →
      actionVoid rightsOk txs = ([], some "Only authorized transactions can be voided."))
  ∧ ((∃ t ∈ txs, t.state ≠ "done") →
      actionRefund txs = ([], some "Only confirmed transactions can be refunded.")) := by
  refine ⟨fun hx => ?_, fun hx => ?_, fun hx => ?_⟩
  · rw [actionCapture, if_pos]
    simpa using hx
  · rw [actionVoid, if_pos]
    simpa using hx
  · rw [actionRefund, if_pos]
    simpa using hx

/-- Witness for C4 at a concrete draft transaction. -/
theorem C4_action_state_checks_witness :
    actionCapture true [⟨1, "draft", "adyen_direct"⟩]
        = ([], some "Only authorized transactions can be captured.")
      ∧ actionRefund [⟨1, "draft", "adyen_direct"⟩]
        = ([], some "Only confirmed transactions can be refunded.") :=
  ⟨(C4_action_state_checks true [⟨1, "draft", "adyen_direct"⟩]).1
      ⟨⟨1, "draft", "adyen_direct"⟩, by decide, by decide⟩,
   (C4_action_state_checks true [⟨1, "draft", "adyen_direct"⟩]).2.2
      ⟨⟨1, "draft", "adyen_direct"⟩, by decide, by decide⟩⟩

example : computeReference ["x"] "example" "-" = some "example" := by decide

example : computeReference ["example", "example-7", "example-ref"] "example" "-"
    = some "example-8" := by decide

/-- C5: evaluation of the code at the failing input. The raw prefix a+ is
interpolated into the regular expression, where the plus acts as a
quantifier, so neither existing sequence reference a+-5 nor a+-1 matches
the scan; the maximal sequence number is computed as 0 and the returned
reference a+-1 collides with the existing reference a+-1, instead of the
a+-6 demanded by the claim (and by the documented uniqueness of the
computed reference). -/
theorem C5_reference_collision :
    computeReference refsW "a+" "-" = some "a+-1" ∧ "a+-1" ∈ refsW := by decide

example : splitOnChar '-' "1-2".data = ["1".data, "2".data] := by decide

example : splitOnChar '-' "-1-2".data = ["".data, "1".data, "2".data] := by decide

example : pyInt " +1_0 ".data = some 10 := by decide

example : pyInt "3x".data = none := by decide

example : pyPair "3-7" = some (3, 7) := by decide

example : pyPair "3-7-9" = none := by decide

example : pyPair "-3-7" = none := by decide

/-- The tokenwise append is the map over the tokens. -/
theorem appendTokens_eq (doms : List Domain) (f : String → Domain) (tokens : List String) :
    appendTokens doms f tokens = doms ++ tokens.map f := by
  induction tokens generalizing doms with
  | nil => simp [appendTokens]
  | cons t ts ih =>
    show appendTokens (doms ++ [f t]) f ts = _
    rw [ih]
    simp

/-- The domain-carrying attrib loop appends exactly the attribDomains. -/
theorem attribLoopDoms_eq (entries : List String) : ∀ (attrib : Option Int) (ids : List Int)
    (doms : List Domain),
    attribLoopDoms entries attrib ids doms
      = doms ++ (attribLoop entries attrib ids).map (fun l => [DTerm.leaf (Cond.attrValIn l)]) := by
  induction entries with
  | nil =>
    intro attrib ids doms
    by_cases h : truthyAttrib attrib <;> simp [attribLoopDoms, attribLoop, h]
  | cons v rest ih =>
    intro attrib ids doms
    rw [attribLoopDoms, attribLoop]
    cases hp : pyPair v with
    | none => simp only [hp]; exact ih attrib ids doms
    | some pr =>
      obtain ⟨a, val⟩ := pr
      simp only [hp]
      by_cases h : truthyAttrib attrib
      · simp only [h, Bool.not_true, Bool.false_eq_true, if_false]
        by_cases h2 : (some a == attrib) = true
        · simp only [h2, if_true]
          exact ih attrib (ids ++ [val]) doms
        · simp only [h2, Bool.false_eq_true, if_false]
          rw [ih (some a) [val] (doms ++ [[DTerm.leaf (Cond.attrValIn ids)]])]
          simp
      · simp only [h, Bool.not_false, if_true]
        exact ih (some a) (ids ++ [val]) doms

/-- A helper to flatten the source's conditional appends. -/
theorem ite_append_extract {c : Prop} [Decidable c] (A X : List Domain) :
    (if c then A ++ X else A) = A ++ (if c then X else []) := by
  split <;> simp

set_option maxHeartbeats 1000000 in
/-- C6, amended: the returned conjunction consists of the published-product
domain followed, in source order, by one conjunct per provided and truthy
filter, where the name and search strings contribute one conjunct per piece
of the split on single spaces and the attrib_values filter contributes its
loop's conjuncts; a filter that is absent, or present but falsy (an empty
list, an empty string, a zero price bound), contributes no conjunct. -/
theorem C6_domain_conjuncts (env : PEnv) (search : Option String) (kw : FilterKw) :
    getSearchDomain env search kw
      = ⟨[env.saleProductDomain]
          ++ (if truthyList kw.ids then [[DTerm.leaf (Cond.idIn (kw.ids.getD []))]] else [])
          ++ (if truthyList kw.category_id
              then [[DTerm.leaf (Cond.categChildOf (kw.category_id.getD []))]] else [])
          ++ (if truthyStr kw.category_slug
              then [[DTerm.leaf (Cond.categSlugEq (kw.category_slug.getD ""))]] else [])
          ++ (if truthyList kw.attribute_value_id
              then [[DTerm.leaf (Cond.attrValIn (kw.attribute_value_id.getD []))]] else [])
          ++ (if truthyList kw.attrib_values
              then attribDomains (kw.attrib_values.getD []) else [])
          ++ (if truthyStr kw.name
              then ((kw.name.getD "").splitOn " ").map (fun n => [DTerm.leaf (Cond.nameIlike n)])
              else [])
          ++ (if truthyStr search
              then ((search.getD "").splitOn " ").map searchDisjunct else [])
          ++ (if truthyNum kw.min_price
              then [[DTerm.leaf (Cond.priceGE (kw.min_price.getD 0))]] else [])
          ++ (if truthyNum kw.max_price
              then [[DTerm.leaf (Cond.priceLE (kw.max_price.getD 0))]] else [])⟩ := by
  simp only [getSearchDomain, attribLoopDoms_eq, appendTokens_eq, attribDomains]
  simp only [ite_append_extract]

/-- C6 counterexample: the bound max_price = 0 is provided, but because 0
is falsy in Python the code appends no list_price conjunct, while the claim
demands the conjunct list_price less-or-equal 0 for every provided bound. -/
theorem C6_counterexample :
    kwMaxZero.max_price = some 0
      ∧ [DTerm.leaf (Cond.priceLE 0)] ∉ (getSearchDomain pEnvW none kwMaxZero).conjuncts := by
  decide

/-- The loop with a set running attribute id computes the group
decomposition continued from that id and the accumulated ids. -/
theorem attribLoop_some_eq : ∀ (entries : List String) (a : Int) (ids : List Int),
    attribLoop entries (some a) ids = blocksCont a ids (entries.filterMap pyPair) := by
  intro entries
  induction entries with
  | nil =>
    intro a ids
    by_cases h : a = 0
    · subst h; simp [attribLoop, truthyAttrib, blocksCont]
    · simp [attribLoop, truthyAttrib, h, blocksCont]
  | cons v rest ih =>
    intro a ids
    rw [attribLoop]
    cases hp : pyPair v with
    | none =>
      simp only [hp, List.filterMap_cons]
      exact ih a ids
    | some pr =>
      obtain ⟨b, val⟩ := pr
      simp only [hp, List.filterMap_cons]
      by_cases ha : a = 0
      · subst ha
        rw [if_pos (by decide : (!truthyAttrib (some (0 : Int))) = true)]
        rw [ih b (ids ++ [val]), blocksCont, if_pos (Or.inl rfl)]
      · have hfalse : ¬ (!truthyAttrib (some a)) = true := by
          simp [truthyAttrib, ha]
        rw [if_neg hfalse]
        by_cases hba : b = a
        · subst hba
          rw [if_pos (by simp : (some b == some b) = true)]
          rw [ih b (ids ++ [val]), blocksCont, if_pos (Or.inr rfl)]
        · rw [if_neg (by simp [hba] : ¬ (some b == some a) = true)]
          rw [ih b [val], blocksCont, if_neg (by tauto : ¬ (a = 0 ∨ b = a))]

/-- C9, amended: entries that do not parse are skipped; among the valid
entries, a conjunct boundary falls exactly before an entry whose attribute
id differs from the previous entry's id when that previous id is nonzero;
an entry with the falsy attribute id 0 never closes its group, so its value
ids are carried into the next conjunct; each group so delimited contributes
exactly one conjunct holding its accumulated value ids, except the final
group, which is dropped when its last attribute id is 0; two entries with
the same attribute id separated by an entry with a different nonzero id
still produce separate conjuncts. -/
theorem C9_attrib_runs (entries : List String) :
    attribDomains entries
      = (blocksSpec (entries.filterMap pyPair)).map
          (fun l => [DTerm.leaf (Cond.attrValIn l)]) := by
  rw [attribDomains]
  congr 1
  induction entries with
  | nil => simp [attribLoop, truthyAttrib, blocksSpec]
  | cons v rest ih =>
    rw [attribLoop]
    cases hp : pyPair v with
    | none =>
      simp only [hp, List.filterMap_cons]
      exact ih
    | some pr =>
      obtain ⟨b, val⟩ := pr
      simp only [hp, List.filterMap_cons]
      rw [if_pos (by decide : (!truthyAttrib (none : Option Int)) = true)]
      simp only [List.nil_append]
      rw [attribLoop_some_eq rest b [val], blocksSpec]

/-- C9 counterexample: the entry 0-1 parses into the valid pair (0, 1), a
maximal run of length one, but the code contributes no conjunct for it: the
running attribute id 0 is falsy, so the final flush is skipped. -/
theorem C9_counterexample :
    pyPair "0-1" = some (0, 1) ∧ attribDomains ["0-1"] = [] := by decide

example : attribDomains ["0-1", "3-9"] = [[DTerm.leaf (Cond.attrValIn [1, 9])]] := by decide

example :
    attribDomains ["3-1", "0-2", "3-5"]
      = [[DTerm.leaf (Cond.attrValIn [1])], [DTerm.leaf (Cond.attrValIn [2, 5])]] := by decide

example : (getProductList ([10, 20, 30, 40, 50] : List Nat) 2 2).1 = [30, 40] := by decide

example : (getProductList ([10, 20, 30, 40, 50] : List Nat) 2 2).2 = 5 := by decide

/-- A slice of nonnegative width ps starting at a nonnegative offset has at
most ps elements. -/
theorem pySlice_length_le {α : Type} (l : List α) (a ps : Int) (ha : 0 ≤ a) (hps : 0 ≤ ps) :
    ((pySlice l a (a + ps)).length : Int) ≤ ps := by
  simp only [pySlice, pyBound, List.length_drop, List.length_take]
  rw [if_neg (by omega), if_neg (by omega)]
  omega

/-- C7, amended: total_count is the number of products matching the domain
before pagination (so it does not depend on current_page or page_size), the
returned products are the slice of the full ordered result from offset to
offset + page_size with offset = (current_page - 1) * page_size for pages
beyond the first and 0 otherwise, and, for a nonnegative page_size, at most
page_size products are returned. -/
theorem C7_pagination {α : Type} (products : List α) (currentPage pageSize : Int) :
    (getProductList products currentPage pageSize).2 = products.length
  ∧ (getProductList products currentPage pageSize).1
      = pySlice products (if currentPage > 1 then (currentPage - 1) * pageSize else 0)
          ((if currentPage > 1 then (currentPage - 1) * pageSize else 0) + pageSize)
  ∧ (0 ≤ pageSize →
      (((getProductList products currentPage pageSize).1.length : Int) ≤ pageSize)) := by
  refine ⟨rfl, rfl, fun hps => ?_⟩
  have hoff : 0 ≤ (if currentPage > 1 then (currentPage - 1) * pageSize else 0) := by
    split
    · exact mul_nonneg (by omega) hps
    · exact le_refl 0
  exact pySlice_length_le products _ pageSize hoff hps

/-- Witness for the amended C7, on the second page of size 2 of a
three-product list. -/
theorem C7_pagination_witness :
    (getProductList ([10, 20, 30] : List Nat) 2 2).2 = ([10, 20, 30] : List Nat).length
      ∧ (getProductList ([10, 20, 30] : List Nat) 2 2).1
          = pySlice [10, 20, 30] (if (2 : Int) > 1 then ((2 : Int) - 1) * 2 else 0)
              ((if (2 : Int) > 1 then ((2 : Int) - 1) * 2 else 0) + 2)
      ∧ (((getProductList ([10, 20, 30] : List Nat) 2 2).1.length : Int) ≤ 2) := by
  have h := C7_pagination ([10, 20, 30] : List Nat) 2 2
  exact ⟨h.1, h.2.1, h.2.2 (by decide)⟩

/-- C7 counterexample: the claim quantifies over every page request, but a
request with the negative page_size -1 returns the Python slice up to the
last-but-one product, which has more elements than the claimed bound of at
most page_size products. -/
theorem C7_counterexample :
    (getProductList ([10, 20] : List Nat) 1 (-1)).1 = [10]
      ∧ ¬ (((getProductList ([10, 20] : List Nat) 1 (-1)).1.length : Int) ≤ -1) := by
  decide

/-- When no argument is truthy the prioritised lookup finds nothing. -/
theorem priLookup_falsy (env : REnv) (pid : Option Int) (slug barcode : Option String)
    (h1 : truthyId pid = false) (h2 : truthyStr slug = false)
    (h3 : truthyStr barcode = false) :
    priLookup env pid slug barcode = none := by
  simp [priLookup, h1, h2, h3]

/-- C8, amended: resolve_product raises (Product does not exist.) exactly
when none of id, slug and barcode is given and truthy (a zero id or an
empty string is falsy and ignored), or the lookup by the first truthy
argument in the priority order id, slug, barcode finds no record, or the
found product is not accessible from the current website; otherwise it
returns the single product found. -/
theorem C8_resolve_product (env : REnv) (pid : Option Int) (slug barcode : Option String) :
    (resolveProduct env pid slug barcode = Except.error "Product does not exist." ↔
      ((truthyId pid = false ∧ truthyStr slug = false ∧ truthyStr barcode = false)
        ∨ priLookup env pid slug barcode = none
        ∨ (∃ p, priLookup env pid slug barcode = some p ∧ env.canAccess p = false)))
  ∧ (∀ p, priLookup env pid slug barcode = some p → env.canAccess p = true →
      resolveProduct env pid slug barcode = Except.ok p) := by
  constructor
  · constructor
    · intro herr
      cases hl : priLookup env pid slug barcode with
      | none => exact Or.inr (Or.inl rfl)
      | some p =>
        by_cases hc : env.canAccess p
        · exfalso
          simp [resolveProduct, hl, hc] at herr
        · exact Or.inr (Or.inr ⟨p, rfl, by simpa using hc⟩)
    · intro hr
      rcases hr with ⟨h1, h2, h3⟩ | hnone | ⟨p, hp, hc⟩
      · simp [resolveProduct, priLookup_falsy env pid slug barcode h1 h2 h3]
      · simp [resolveProduct, hnone]
      · simp [resolveProduct, hp, hc]
  · intro p hp hc
    simp [resolveProduct, hp, hc]

/-- Witness for the amended C8: the lookup by id 5 succeeds and the product
is returned. -/
theorem C8_resolve_product_witness :
    priLookup rEnvW (some 5) none none = some 42 ∧ rEnvW.canAccess 42 = true
      ∧ resolveProduct rEnvW (some 5) none none = Except.ok 42 :=
  ⟨by decide, by decide,
   (C8_resolve_product rEnvW (some 5) none none).2 42 (by decide) (by decide)⟩

/-- C8 counterexample: with id = 0 given and a slug given, the claim says
the lookup is by id (given first in the priority order), finds no record,
and the error is raised; the code instead treats the id 0 as falsy, falls
through to the slug lookup and returns the product. -/
theorem C8_counterexample :
    resolveProduct rEnvC (some 0) (some "chair") none = Except.ok 7
      ∧ rEnvC.byId 0 = none :=
  ⟨rfl, rfl⟩

/-- C10: the cache-invalidation settings round-trip: whatever the super
calls do, a get_values after a set_values returns exactly the two stored
values. -/
theorem C10_cache_settings_roundtrip (superSet : ParamStore → ParamStore)
    (cfg : CacheSettings) (store : ParamStore) :
    getValues (setValues superSet cfg store)
      = (some cfg.vsf_cache_invalidation_key, some cfg.vsf_cache_invalidation_url) := by
  simp [getValues, setValues, setParam]

/-- C1 counterexample: the claim quantifies over every call of update_state,
but when the target state is itself an allowed state (here both are done)
the first two classify_by_state groups share a transaction, so the recordset
is not partitioned into three disjoint groups as claimed. -/
theorem C1_counterexample :
    txDoneC ∈ txsToProcess ["done"] [txDoneC]
      ∧ txDoneC ∈ txsAlreadyProcessed "done" [txDoneC] := by
  decide

end VSF

